import Mathlib

/-!
Verification development for the session/token lifecycle subsystem of the
Backend_Master repository: token issuance, the auth middleware, refresh
rotation and revocation, and the error-handling wrapper.

The JavaScript source is embedded shallowly: each controller becomes a pure
Lean function threading the credential store (a list of user records) and an
explicit clock. Machine-level details that the verified claims do not touch
(cookie flags, HTTP plumbing, media upload) are omitted; everything the
claims mention is translated from the source files.
-/

deriving instance DecidableEq for Except

namespace BackendMaster

/-- Process-wide configuration: the two token secrets and the two token
lifetimes, immutable after startup (read from the environment in the
source). -/
structure Config where
  accessTokenSecret : String
  refreshTokenSecret : String
  accessTokenExpiry : Nat
  refreshTokenExpiry : Nat
deriving DecidableEq, Repr

/-- A signed JSON web token, modelled symbolically: the payload carries the
subject user id and the standard time claims, and the signature is modelled
by recording which secret signed the token. Two tokens are equal exactly
when their serialized forms would be equal (the signing function of the
jsonwebtoken library is deterministic in payload and secret). -/
structure Jwt where
  sub : Nat
  secret : String
  iat : Nat
  exp : Nat
deriving DecidableEq, Repr

/-- Modelled from the spec: user.model.js is not under src/. The Token
Service contract says issueAccessToken and issueRefreshToken sign a payload
containing the user id and standard time claims with the given secret and
time-to-live, as a pure function of user identity, secret and clock. -/
def jwtSign (sub : Nat) (secret : String) (now ttl : Nat) : Jwt :=
  { sub := sub, secret := secret, iat := now, exp := now + ttl }

/-- Verification failures of the jsonwebtoken library (an external
collaborator): a wrong secret raises JsonWebTokenError with message
"invalid signature", an elapsed expiry raises TokenExpiredError with
message "jwt expired". -/
inductive JwtVerifyError where
  | invalidSignature
  | tokenExpired
deriving DecidableEq, Repr

/-- The message field of the corresponding JavaScript error object. -/
def JwtVerifyError.message : JwtVerifyError → String
  | .invalidSignature => "invalid signature"
  | .tokenExpired => "jwt expired"

/-- jwt.verify of the jsonwebtoken library: checks the signature against the
given secret, then the expiry claim against the clock, and returns the
decoded subject id on success. -/
def jwtVerify (t : Jwt) (secret : String) (now : Nat) : Except JwtVerifyError Nat :=
  if t.secret ≠ secret then .error .invalidSignature
  else if t.exp ≤ now then .error .tokenExpired
  else .ok t.sub

/-- A persisted user record of the credential store. The password field
holds the one-way hash. The refreshToken field is the at-most-one persisted
refresh token; none models both an absent and an unset field. -/
structure UserRec where
  username : String
  email : String
  password : String
  refreshToken : Option Jwt
deriving DecidableEq, Repr

/-- The credential store: user records keyed by user id. -/
abbrev Db := List (Nat × UserRec)

/-- User.findById of the store. -/
def findById : Db → Nat → Option UserRec
  | [], _ => none
  | (i, u) :: rest, id => if i = id then some u else findById rest id

/-- Persisting a new value of the refreshToken field of the record with the
given id (user.save after assignment, findByIdAndUpdate with unset when the
value is none). A missing id leaves the store unchanged. -/
def setRefreshToken : Db → Nat → Option Jwt → Db
  | [], _, _ => []
  | (i, u) :: rest, id, v =>
    if i = id then (i, { u with refreshToken := v }) :: setRefreshToken rest id v
    else (i, u) :: setRefreshToken rest id v

/-- User.findOne with an or-query on username and email: the first record
whose username or email equals the given optional values. -/
def findByUsernameOrEmail : Db → Option String → Option String → Option (Nat × UserRec)
  | [], _, _ => none
  | (i, u) :: rest, un, em =>
    if un = some u.username ∨ em = some u.email then some (i, u)
    else findByUsernameOrEmail rest un em

/-- Modelled from the spec: ApiError.js is not under src/. The spec response
contract says failures carry a status classification and a human-readable
message; the ApiError constructor takes the status first and the message
second, and asyncHandler reads the status back from the code field. The
code is optional because asyncHandler must also handle errors that are not
ApiError instances and carry no status. -/
structure ApiError where
  code : Option Nat
  message : String
deriving DecidableEq, Repr

/-- The ApiError constructor as the controllers call it. -/
def apiError (c : Nat) (m : String) : ApiError := ⟨some c, m⟩

/-- Modelled from the spec: user.model.js is not under src/. The spec says a
password is stored as a one-way hash and never compared in plaintext; the
hash is modelled as an injective tagging function. -/
def hashPassword (plain : String) : String := String.append "bcrypt." plain

/-- user.isPasswordCorrect: compares the stored hash against the hash of the
presented plaintext. -/
def isPasswordCorrect (u : UserRec) (plain : String) : Bool :=
  u.password = hashPassword plain

/-- JavaScript truthiness of an optional string field of a request body:
absent and empty strings are falsy. -/
def truthyString : Option String → Bool
  | none => false
  | some s => !(s = "")

/-- The catch-all message of generateAccessTokenAndRefreshToken. -/
def generateErrorMessage : String :=
  "Something went wrong while generating access and refresh token"

/-- generateAccessTokenAndRefreshToken of user.controller.js: fetches the
user, signs a fresh access and refresh token, stores the refresh token on
the record and saves. The saveOk flag models whether the store save
succeeds; any failure inside the try block (missing user or failed save) is
caught and rethrown as ApiError 500 with the catch-all message, and a
failed save leaves the store unchanged (the assignment before save mutates
only the in-memory document). -/
def generateAccessTokenAndRefreshToken (cfg : Config) (db : Db) (now : Nat)
    (saveOk : Bool) (userId : Nat) : Db × Except ApiError (Jwt × Jwt) :=
  match findById db userId with
  | none => (db, .error (apiError 500 generateErrorMessage))
  | some _ =>
    let accessToken := jwtSign userId cfg.accessTokenSecret now cfg.accessTokenExpiry
    let refreshToken := jwtSign userId cfg.refreshTokenSecret now cfg.refreshTokenExpiry
    if saveOk then
      (setRefreshToken db userId (some refreshToken), .ok (accessToken, refreshToken))
    else
      (db, .error (apiError 500 generateErrorMessage))

/-- The sanitized user view: findById with password and refreshToken
deselected. -/
structure PublicUser where
  id : Nat
  username : String
  email : String
deriving DecidableEq, Repr

/-- Select away the password and refreshToken fields. -/
def sanitizeUser (id : Nat) (u : UserRec) : PublicUser :=
  ⟨id, u.username, u.email⟩

/-- The success payload of loginUser: the sanitized user (an option,
because the source re-fetches the record after saving and would serialize a
null user if the re-fetch missed) and the token pair. -/
structure LoginResponse where
  user : Option PublicUser
  accessToken : Jwt
  refreshToken : Jwt
deriving DecidableEq, Repr

/-- The request body of loginUser; each field may be absent. -/
structure LoginRequest where
  username : Option String
  email : Option String
  password : Option String
deriving DecidableEq, Repr

/-- loginUser of user.controller.js: requires a truthy username or email and
a truthy password, resolves the user by an or-query, checks the password
hash, then issues and persists a fresh token pair and returns the sanitized
user with both tokens. -/
def loginUser (cfg : Config) (db : Db) (now : Nat) (saveOk : Bool)
    (req : LoginRequest) : Db × Except ApiError LoginResponse :=
  if !(truthyString req.username || truthyString req.email) || !(truthyString req.password) then
    (db, .error (apiError 400 "Username or email and password are required."))
  else
    match findByUsernameOrEmail db req.username req.email with
    | none => (db, .error (apiError 404 "User does not exist."))
    | some (id, u) =>
      if !(isPasswordCorrect u (req.password.getD "")) then
        (db, .error (apiError 401 "Invalid user credentials"))
      else
        match generateAccessTokenAndRefreshToken cfg db now saveOk id with
        | (db2, .error e) => (db2, .error e)
        | (db2, .ok (accessToken, refreshToken)) =>
          (db2, .ok { user := (findById db2 id).map (sanitizeUser id),
                      accessToken := accessToken,
                      refreshToken := refreshToken })

/-- logoutUser of user.controller.js: fails 401 when no authenticated
identity is attached to the request, otherwise unsets the persisted
refreshToken field unconditionally and succeeds. -/
def logoutUser (db : Db) (reqUser : Option Nat) : Db × Except ApiError Unit :=
  match reqUser with
  | none => (db, .error (apiError 401 "Unauthorized request"))
  | some userId => (setRefreshToken db userId none, .ok ())

/-- The body of the try block of refreshAccessToken up to the rotation
call: verify the presented token with the refresh secret, load the user by
the decoded subject id, and compare the presented token against the
persisted value; returns the user id when the comparison succeeds.
Verification failures are plain library errors without a status code. -/
def refreshValidate (cfg : Config) (db : Db) (now : Nat) (tok : Jwt) :
    Except ApiError Nat :=
  match jwtVerify tok cfg.refreshTokenSecret now with
  | .error e => .error ⟨none, e.message⟩
  | .ok sub =>
    match findById db sub with
    | none => .error (apiError 401 "Invalid refresh token")
    | some u =>
      if u.refreshToken = some tok then .ok sub
      else .error (apiError 401 "Refresh token is expired or used.")

/-- refreshAccessToken of user.controller.js: takes the presented refresh
token from the cookie or the body (modelled as one optional value), fails
with a dedicated 401 when it is missing, and otherwise runs the try block:
validation followed by rotation via generateAccessTokenAndRefreshToken. The
surrounding catch rethrows every error of the try block as ApiError 401
carrying the underlying message. -/
def refreshAccessToken (cfg : Config) (db : Db) (now : Nat) (saveOk : Bool)
    (incomingRefreshToken : Option Jwt) : Db × Except ApiError (Jwt × Jwt) :=
  match incomingRefreshToken with
  | none => (db, .error (apiError 401 "Unauthorized Request. Refresh Token missing."))
  | some tok =>
    match refreshValidate cfg db now tok with
    | .error e => (db, .error (apiError 401 e.message))
    | .ok userId =>
      match generateAccessTokenAndRefreshToken cfg db now saveOk userId with
      | (db2, .error e) => (db2, .error (apiError 401 e.message))
      | (db2, .ok pair) => (db2, .ok pair)

/-- An inbound request as the auth middleware sees it: the access-token
cookie, and the token carried by a Bearer authorization header (the source
strips the Bearer prefix before use; the header is modelled as the token it
carries). -/
structure AuthRequest where
  cookieAccessToken : Option Jwt
  authorizationBearer : Option Jwt
deriving DecidableEq, Repr

/-- The body of the try block of verifyJWT: extract the token preferring
the cookie and falling back to the authorization header, fail when neither
is present, verify with the access secret, resolve the user by the decoded
subject id with password and refreshToken deselected, and fail when the
user no longer exists. On success the sanitized identity is attached to the
request, modelled as the returned value. -/
def verifyJWTBody (cfg : Config) (db : Db) (now : Nat) (req : AuthRequest) :
    Except ApiError PublicUser :=
  match req.cookieAccessToken.orElse (fun _ => req.authorizationBearer) with
  | none => .error (apiError 401 "Unauthorized request")
  | some token =>
    match jwtVerify token cfg.accessTokenSecret now with
    | .error e => .error ⟨none, e.message⟩
    | .ok sub =>
      match findById db sub with
      | none => .error (apiError 401 "Invalid Access Token")
      | some u => .ok (sanitizeUser sub u)

/-- verifyJWT of the auth middleware: the try block wrapped by the catch
that rethrows every failure as ApiError 401 with the underlying message,
falling back to a fixed message when the underlying message is empty. -/
def verifyJWT (cfg : Config) (db : Db) (now : Nat) (req : AuthRequest) :
    Except ApiError PublicUser :=
  match verifyJWTBody cfg db now req with
  | .error e =>
    .error (apiError 401 (if e.message = "" then "Invalid access Token" else e.message))
  | .ok u => .ok u

/-- The observable response the wrapper produces: the HTTP status and the
JSON body fields it writes. Successful controllers produce their own
response; the wrapper only builds the failure shape. -/
structure HttpResponse where
  status : Nat
  success : Bool
  message : String
deriving DecidableEq, Repr

/-- asyncHandler of utils: awaits the wrapped controller and, when it
throws, answers with status error.code when that value is truthy and 500
otherwise, and the body with success false and the error message. Returning
an HttpResponse in every case models that the wrapper never rethrows. -/
def asyncHandler (controllerResult : Except ApiError HttpResponse) : HttpResponse :=
  match controllerResult with
  | .ok r => r
  | .error e =>
    { status := match e.code with
      | some c => if c = 0 then 500 else c
      | none => 500,
      success := false,
      message := e.message }

/-- A user record with its persisted refresh token replaced. -/
def withToken (u : UserRec) (v : Option Jwt) : UserRec :=
  { u with refreshToken := v }

/-! Store lemmas. -/

theorem findById_setRefreshToken_self (db : Db) (id : Nat) (v : Option Jwt) :
    findById (setRefreshToken db id v) id =
      (findById db id).map (fun u => { u with refreshToken := v }) := by
  induction db with
  | nil => rfl
  | cons hd tl ih =>
    obtain ⟨i, u⟩ := hd
    by_cases h : i = id <;> simp [findById, setRefreshToken, h, ih]

theorem findById_setRefreshToken_ne (db : Db) (id j : Nat) (v : Option Jwt)
    (h : j ≠ id) :
    findById (setRefreshToken db id v) j = findById db j := by
  induction db with
  | nil => rfl
  | cons hd tl ih =>
    obtain ⟨i, u⟩ := hd
    by_cases hi : i = id
    · subst hi
      simp [findById, setRefreshToken, Ne.symm h, ih]
    · by_cases hj : i = j <;> simp [findById, setRefreshToken, hi, hj, h, ih]

theorem setRefreshToken_setRefreshToken (db : Db) (id : Nat) (v w : Option Jwt) :
    setRefreshToken (setRefreshToken db id v) id w = setRefreshToken db id w := by
  induction db with
  | nil => rfl
  | cons hd tl ih =>
    obtain ⟨i, u⟩ := hd
    by_cases h : i = id <;> simp [setRefreshToken, h, ih]

theorem findByUsernameOrEmail_setRefreshToken (db : Db) (id : Nat)
    (v : Option Jwt) (un em : Option String) :
    findByUsernameOrEmail (setRefreshToken db id v) un em =
      (findByUsernameOrEmail db un em).map
        (fun p => if p.1 = id then (p.1, { p.2 with refreshToken := v }) else p) := by
  induction db with
  | nil => rfl
  | cons hd tl ih =>
    obtain ⟨i, u⟩ := hd
    by_cases hm : un = some u.username ∨ em = some u.email
    · by_cases h : i = id <;> simp [setRefreshToken, findByUsernameOrEmail, h, hm]
    · by_cases h : i = id <;> simp [setRefreshToken, findByUsernameOrEmail, h, hm, ih]

/-! Characterizations of the refresh paths. -/

theorem refresh_ok_of (cfg : Config) (db : Db) (now : Nat) (t : Jwt) (u : UserRec)
    (hsec : t.secret = cfg.refreshTokenSecret) (hexp : now < t.exp)
    (hfind : findById db t.sub = some u) (hmatch : u.refreshToken = some t) :
    refreshAccessToken cfg db now true (some t) =
      (setRefreshToken db t.sub
         (some (jwtSign t.sub cfg.refreshTokenSecret now cfg.refreshTokenExpiry)),
       .ok (jwtSign t.sub cfg.accessTokenSecret now cfg.accessTokenExpiry,
            jwtSign t.sub cfg.refreshTokenSecret now cfg.refreshTokenExpiry)) := by
  simp [refreshAccessToken, refreshValidate, jwtVerify, hsec, Nat.not_le.mpr hexp,
        hfind, hmatch, generateAccessTokenAndRefreshToken]

theorem refresh_reused_of (cfg : Config) (db : Db) (now : Nat) (saveOk : Bool)
    (t : Jwt) (u : UserRec)
    (hsec : t.secret = cfg.refreshTokenSecret) (hexp : now < t.exp)
    (hfind : findById db t.sub = some u) (hmm : u.refreshToken ≠ some t) :
    refreshAccessToken cfg db now saveOk (some t) =
      (db, .error (apiError 401 "Refresh token is expired or used.")) := by
  simp [refreshAccessToken, refreshValidate, jwtVerify, hsec, Nat.not_le.mpr hexp,
        hfind, hmm, apiError]

/-! Characterization of the login success path. -/

theorem login_ok_of (cfg : Config) (db : Db) (now : Nat) (req : LoginRequest)
    (id : Nat) (u : UserRec)
    (hcred : (truthyString req.username || truthyString req.email) = true)
    (hpw : truthyString req.password = true)
    (hfind : findByUsernameOrEmail db req.username req.email = some (id, u))
    (hbyId : findById db id = some u)
    (hok : isPasswordCorrect u (req.password.getD "") = true) :
    loginUser cfg db now true req =
      (setRefreshToken db id
         (some (jwtSign id cfg.refreshTokenSecret now cfg.refreshTokenExpiry)),
       .ok { user := some ⟨id, u.username, u.email⟩,
             accessToken := jwtSign id cfg.accessTokenSecret now cfg.accessTokenExpiry,
             refreshToken := jwtSign id cfg.refreshTokenSecret now cfg.refreshTokenExpiry }) := by
  simp [loginUser, hcred, hpw, hfind, hok, generateAccessTokenAndRefreshToken,
        hbyId, findById_setRefreshToken_self, sanitizeUser]

/-! Concrete fixtures used by the witnesses and counterexamples. -/

/-- A concrete configuration. -/
def cfgC : Config := ⟨"access-secret", "refresh-secret", 15, 60⟩

/-- A concrete refresh token for user 1, signed with the refresh secret at
time 0 with expiry 100. -/
def t1C : Jwt := ⟨1, "refresh-secret", 0, 100⟩

/-- A concrete user holding t1C as the persisted refresh token. -/
def uC : UserRec := ⟨"alice", "alice@mail.example", hashPassword "pw1", some t1C⟩

/-- A concrete one-user store. -/
def dbC : Db := [(1, uC)]

/-- A concrete login request for uC. -/
def reqC : LoginRequest := ⟨some "alice", none, some "pw1"⟩

/-- C1: Rotation invalidation. For a user whose persisted refresh token is
t1, a successful refresh of t1 returns a rotated pair whose refresh token
t2 replaces the persisted value, after which refreshing t1 again fails with
the TokenReused rejection (ApiError 401, message "Refresh token is expired
or used.") while refreshing t2 succeeds. The sequencing hypotheses say the
calls happen before t1 and t2 expire and that the rotation happens at a
clock instant other than the one t1 was signed at (the deterministic signer
would otherwise reissue t1 itself). -/
theorem C1_rotation_invalidation (cfg : Config) (db : Db) (u : UserRec) (t1 : Jwt)
    (now1 now2 now3 : Nat)
    (hsec : t1.secret = cfg.refreshTokenSecret)
    (hfind : findById db t1.sub = some u)
    (hmatch : u.refreshToken = some t1)
    (h1 : now1 < t1.exp)
    (hiat : t1.iat ≠ now1)
    (h2 : now2 < t1.exp)
    (h3 : now3 < now1 + cfg.refreshTokenExpiry) :
    ∃ db1 a2 t2,
      refreshAccessToken cfg db now1 true (some t1) = (db1, .ok (a2, t2)) ∧
      refreshAccessToken cfg db1 now2 true (some t1) =
        (db1, .error (apiError 401 "Refresh token is expired or used.")) ∧
      ∃ db3 p, refreshAccessToken cfg db1 now3 true (some t2) = (db3, .ok p) := by
  have hneq : jwtSign t1.sub cfg.refreshTokenSecret now1 cfg.refreshTokenExpiry ≠ t1 := by
    intro h
    apply hiat
    rw [← h]
    rfl
  have hfind1 : findById (setRefreshToken db t1.sub
      (some (jwtSign t1.sub cfg.refreshTokenSecret now1 cfg.refreshTokenExpiry))) t1.sub =
      some (withToken u
        (some (jwtSign t1.sub cfg.refreshTokenSecret now1 cfg.refreshTokenExpiry))) := by
    simp [findById_setRefreshToken_self, hfind, withToken]
  refine ⟨_, _, _, refresh_ok_of cfg db now1 t1 u hsec h1 hfind hmatch, ?_, ?_⟩
  · exact refresh_reused_of cfg _ now2 true t1 _ hsec h2 hfind1 (by simp [withToken, hneq])
  · exact ⟨_, _, refresh_ok_of cfg _ now3 _ _ rfl h3 hfind1 rfl⟩

/-- Witness for C1 at the concrete fixture: user 1 holds t1C, the refresh
calls happen at times 5, 6 and 7. -/
theorem C1_rotation_invalidation_witness :
    ∃ db1 a2 t2,
      refreshAccessToken cfgC dbC 5 true (some t1C) = (db1, .ok (a2, t2)) ∧
      refreshAccessToken cfgC db1 6 true (some t1C) =
        (db1, .error (apiError 401 "Refresh token is expired or used.")) ∧
      ∃ db3 p, refreshAccessToken cfgC db1 7 true (some t2) = (db3, .ok p) :=
  C1_rotation_invalidation cfgC dbC uC t1C 5 6 7 rfl rfl rfl (by decide) (by decide)
    (by decide) (by decide)

/-- C2: Single-session invariant. A user record holds at most one persisted
refresh token by construction (the refreshToken field is a single optional
value), and a successful login overwrites it with the newly issued token.
Hence after two sequential logins of the same user (at distinct clock
instants), the store holds exactly the second refresh token, and presenting
the first refresh token to refresh fails with the TokenReused rejection. -/
theorem C2_single_session_invariant (cfg : Config) (db : Db) (req : LoginRequest)
    (id : Nat) (u : UserRec) (now1 now2 now3 : Nat)
    (hcred : (truthyString req.username || truthyString req.email) = true)
    (hpw : truthyString req.password = true)
    (hfind : findByUsernameOrEmail db req.username req.email = some (id, u))
    (hbyId : findById db id = some u)
    (hok : isPasswordCorrect u (req.password.getD "") = true)
    (hseq : now1 ≠ now2)
    (hexp1 : now3 < now1 + cfg.refreshTokenExpiry) :
    ∃ db1 db2 resp1 resp2,
      loginUser cfg db now1 true req = (db1, .ok resp1) ∧
      loginUser cfg db1 now2 true req = (db2, .ok resp2) ∧
      (∃ u2, findById db2 id = some u2 ∧ u2.refreshToken = some resp2.refreshToken) ∧
      refreshAccessToken cfg db2 now3 true (some resp1.refreshToken) =
        (db2, .error (apiError 401 "Refresh token is expired or used.")) := by
  have h1 := login_ok_of cfg db now1 req id u hcred hpw hfind hbyId hok
  have hfind1 : findByUsernameOrEmail
      (setRefreshToken db id
        (some (jwtSign id cfg.refreshTokenSecret now1 cfg.refreshTokenExpiry)))
      req.username req.email =
      some (id, withToken u
        (some (jwtSign id cfg.refreshTokenSecret now1 cfg.refreshTokenExpiry))) := by
    simp [findByUsernameOrEmail_setRefreshToken, hfind, withToken]
  have hbyId1 : findById
      (setRefreshToken db id
        (some (jwtSign id cfg.refreshTokenSecret now1 cfg.refreshTokenExpiry))) id =
      some (withToken u
        (some (jwtSign id cfg.refreshTokenSecret now1 cfg.refreshTokenExpiry))) := by
    simp [findById_setRefreshToken_self, hbyId, withToken]
  have h2 := login_ok_of cfg _ now2 req id _ hcred hpw hfind1 hbyId1 hok
  have hneq : jwtSign id cfg.refreshTokenSecret now2 cfg.refreshTokenExpiry ≠
      jwtSign id cfg.refreshTokenSecret now1 cfg.refreshTokenExpiry := by
    intro h
    apply hseq
    have := congrArg Jwt.iat h
    simpa [jwtSign] using this.symm
  have hbyId2 : findById
      (setRefreshToken
        (setRefreshToken db id
          (some (jwtSign id cfg.refreshTokenSecret now1 cfg.refreshTokenExpiry))) id
        (some (jwtSign id cfg.refreshTokenSecret now2 cfg.refreshTokenExpiry))) id =
      some (withToken u
        (some (jwtSign id cfg.refreshTokenSecret now2 cfg.refreshTokenExpiry))) := by
    rw [setRefreshToken_setRefreshToken]
    simp [findById_setRefreshToken_self, hbyId, withToken]
  refine ⟨_, _, _, _, h1, h2, ⟨_, hbyId2, rfl⟩, ?_⟩
  exact refresh_reused_of cfg _ now3 true _ _ rfl hexp1 hbyId2 (by simp [withToken, hneq])

/-- Witness for C2 at the concrete fixture: two logins of alice at times 5
and 6, then a refresh presenting the first refresh token at time 7. -/
theorem C2_single_session_invariant_witness :
    ∃ db1 db2 resp1 resp2,
      loginUser cfgC dbC 5 true reqC = (db1, .ok resp1) ∧
      loginUser cfgC db1 6 true reqC = (db2, .ok resp2) ∧
      (∃ u2, findById db2 1 = some u2 ∧ u2.refreshToken = some resp2.refreshToken) ∧
      refreshAccessToken cfgC db2 7 true (some resp1.refreshToken) =
        (db2, .error (apiError 401 "Refresh token is expired or used.")) :=
  C2_single_session_invariant cfgC dbC reqC 1 uC 5 6 7 (by decide) (by decide) rfl rfl
    (by decide) (by decide) (by decide)

/-- C4: Issuance/persistence atomicity. When the store save fails, token
generation fails as a whole with the catch-all ApiError 500, the store is
unchanged, and no token pair is returned; more generally every failing
invocation leaves the store unchanged and raises exactly that error, so no
partly-issued pair is ever recorded. -/
theorem C4_generate_atomicity (cfg : Config) (db : Db) (now : Nat) (userId : Nat) :
    generateAccessTokenAndRefreshToken cfg db now false userId =
      (db, .error (apiError 500 generateErrorMessage)) ∧
    ∀ saveOk db2 e, generateAccessTokenAndRefreshToken cfg db now saveOk userId =
      (db2, .error e) → db2 = db ∧ e = apiError 500 generateErrorMessage := by
  constructor
  · cases hf : findById db userId <;>
      simp [generateAccessTokenAndRefreshToken, hf]
  · intro saveOk db2 e h
    cases hf : findById db userId with
    | none =>
      simp [generateAccessTokenAndRefreshToken, hf] at h
      exact ⟨h.1.symm, h.2.symm⟩
    | some u =>
      cases saveOk with
      | false =>
        simp [generateAccessTokenAndRefreshToken, hf] at h
        exact ⟨h.1.symm, h.2.symm⟩
      | true =>
        simp [generateAccessTokenAndRefreshToken, hf] at h

/-- Witness for C4 at the concrete fixture: a failing save at time 5 for
user 1 raises the 500 error and leaves the store unchanged. -/
theorem C4_generate_atomicity_witness :
    generateAccessTokenAndRefreshToken cfgC dbC 5 false 1 =
      (dbC, .error (apiError 500 generateErrorMessage)) ∧
    (dbC = dbC ∧ apiError 500 generateErrorMessage = apiError 500 generateErrorMessage) :=
  ⟨(C4_generate_atomicity cfgC dbC 5 1).1,
   (C4_generate_atomicity cfgC dbC 5 1).2 false dbC (apiError 500 generateErrorMessage)
     (C4_generate_atomicity cfgC dbC 5 1).1⟩

/-- C5: Login credential gating. For a request that passes the field
presence check, login fails with 404 "User does not exist." when no user
matches the username-or-email query, fails with 401 "Invalid user
credentials" when a user matches but the password check fails, and issues
tokens only when both checks pass. -/
theorem C5_login_credential_gating (cfg : Config) (db : Db) (now : Nat) (saveOk : Bool)
    (req : LoginRequest)
    (hcred : (truthyString req.username || truthyString req.email) = true)
    (hpw : truthyString req.password = true) :
    (findByUsernameOrEmail db req.username req.email = none →
      loginUser cfg db now saveOk req =
        (db, .error (apiError 404 "User does not exist."))) ∧
    (∀ id u, findByUsernameOrEmail db req.username req.email = some (id, u) →
      isPasswordCorrect u (req.password.getD "") = false →
      loginUser cfg db now saveOk req =
        (db, .error (apiError 401 "Invalid user credentials"))) ∧
    (∀ db2 resp, loginUser cfg db now saveOk req = (db2, .ok resp) →
      ∃ id u, findByUsernameOrEmail db req.username req.email = some (id, u) ∧
        isPasswordCorrect u (req.password.getD "") = true) := by
  refine ⟨?_, ?_, ?_⟩
  · intro h
    simp [loginUser, hcred, hpw, h]
  · intro id u h hbad
    simp [loginUser, hcred, hpw, h, hbad]
  · intro db2 resp h
    cases hfind : findByUsernameOrEmail db req.username req.email with
    | none => simp [loginUser, hcred, hpw, hfind] at h
    | some p =>
      obtain ⟨id, u⟩ := p
      cases hok : isPasswordCorrect u (req.password.getD "") with
      | false => simp [loginUser, hcred, hpw, hfind, hok] at h
      | true => exact ⟨id, u, hfind ▸ rfl, hok⟩

/-- Witness for C5: a ghost user fails with 404 and a wrong password for
alice fails with 401 at the concrete fixture. -/
theorem C5_login_credential_gating_witness :
    loginUser cfgC dbC 5 true ⟨some "ghost", none, some "anything"⟩ =
      (dbC, .error (apiError 404 "User does not exist.")) ∧
    loginUser cfgC dbC 5 true ⟨some "alice", none, some "wrongpass"⟩ =
      (dbC, .error (apiError 401 "Invalid user credentials")) :=
  ⟨(C5_login_credential_gating cfgC dbC 5 true ⟨some "ghost", none, some "anything"⟩
      (by decide) (by decide)).1 (by decide),
   (C5_login_credential_gating cfgC dbC 5 true ⟨some "alice", none, some "wrongpass"⟩
      (by decide) (by decide)).2.1 1 uC (by decide) (by decide)⟩

/-- C7: Logout idempotence. A logout with an attached identity succeeds and
clears the persisted refresh token; a second logout also succeeds and
leaves the store exactly as the first did, so logout composed with logout
equals logout; a call with no identity attached fails with the 401
Unauthorized rejection. -/
theorem C7_logout_idempotent (db : Db) (uid : Nat) :
    (logoutUser db (some uid)).2 = .ok () ∧
    (logoutUser (logoutUser db (some uid)).1 (some uid)).2 = .ok () ∧
    (logoutUser (logoutUser db (some uid)).1 (some uid)).1 = (logoutUser db (some uid)).1 ∧
    (∀ u, findById (logoutUser db (some uid)).1 uid = some u → u.refreshToken = none) ∧
    logoutUser db none = (db, .error (apiError 401 "Unauthorized request")) := by
  refine ⟨rfl, rfl, ?_, ?_, rfl⟩
  · simp [logoutUser, setRefreshToken_setRefreshToken]
  · intro u h
    simp only [logoutUser] at h
    rw [findById_setRefreshToken_self] at h
    cases hf : findById db uid with
    | none => rw [hf] at h; simp at h
    | some u0 =>
      rw [hf] at h
      simp at h
      rw [← h]

/-- Witness for C7 at the concrete fixture: logging user 1 out succeeds and
the record it leaves behind carries no refresh token. -/
theorem C7_logout_idempotent_witness :
    (logoutUser dbC (some 1)).2 = .ok () ∧
    (withToken uC none).refreshToken = none :=
  ⟨(C7_logout_idempotent dbC 1).1,
   (C7_logout_idempotent dbC 1).2.2.2.1 (withToken uC none) (by decide)⟩

/-- C6: Middleware credential extraction and gating. The middleware reads
the token from the access-token cookie when present (the authorization
header is then ignored), falls back to the Bearer authorization header,
fails 401 "Unauthorized request" when neither is present, fails 401
"Invalid Access Token" when the token verifies but its subject no longer
exists, and on success returns the resolved sanitized identity, which the
source attaches to the request before calling next. -/
theorem C6_middleware_extraction_gating (cfg : Config) (db : Db) (now : Nat) :
    (∀ c h, verifyJWT cfg db now ⟨some c, h⟩ = verifyJWT cfg db now ⟨some c, none⟩) ∧
    (∀ t, verifyJWT cfg db now ⟨none, some t⟩ = verifyJWT cfg db now ⟨some t, none⟩) ∧
    verifyJWT cfg db now ⟨none, none⟩ = .error (apiError 401 "Unauthorized request") ∧
    (∀ t, t.secret = cfg.accessTokenSecret → now < t.exp →
      findById db t.sub = none →
      verifyJWT cfg db now ⟨some t, none⟩ = .error (apiError 401 "Invalid Access Token")) ∧
    (∀ t u, t.secret = cfg.accessTokenSecret → now < t.exp →
      findById db t.sub = some u →
      verifyJWT cfg db now ⟨some t, none⟩ = .ok (sanitizeUser t.sub u)) := by
  refine ⟨fun c h => rfl, fun t => rfl, ?_, ?_, ?_⟩
  · simp [verifyJWT, verifyJWTBody, apiError]
  · intro t hsec hexp hnone
    simp [verifyJWT, verifyJWTBody, jwtVerify, hsec, Nat.not_le.mpr hexp, hnone, apiError]
  · intro t u hsec hexp hsome
    simp [verifyJWT, verifyJWTBody, jwtVerify, hsec, Nat.not_le.mpr hexp, hsome]

/-- Witness for C6 at the concrete fixture: no credential is rejected, a
valid token of a deleted subject is rejected, and a valid token of user 1
resolves to the sanitized alice identity. -/
theorem C6_middleware_extraction_gating_witness :
    verifyJWT cfgC dbC 5 ⟨none, none⟩ = .error (apiError 401 "Unauthorized request") ∧
    verifyJWT cfgC dbC 5 ⟨some ⟨2, "access-secret", 0, 100⟩, none⟩ =
      .error (apiError 401 "Invalid Access Token") ∧
    verifyJWT cfgC dbC 5 ⟨some ⟨1, "access-secret", 0, 100⟩, none⟩ =
      .ok (sanitizeUser 1 uC) :=
  ⟨(C6_middleware_extraction_gating cfgC dbC 5).2.2.1,
   (C6_middleware_extraction_gating cfgC dbC 5).2.2.2.1 ⟨2, "access-secret", 0, 100⟩
     rfl (by decide) (by decide),
   (C6_middleware_extraction_gating cfgC dbC 5).2.2.2.2 ⟨1, "access-secret", 0, 100⟩ uC
     rfl (by decide) (by decide)⟩

/-- A concrete forged access token: wrong secret, not yet expired. -/
def forgedC : Jwt := ⟨1, "forged-secret", 0, 100⟩

/-- A concrete expired access token: right secret, expiry already passed at
time 5. -/
def expiredC : Jwt := ⟨1, "access-secret", 0, 3⟩

/-- C3 counterexample: a forged token and an expired token presented to the
middleware at the same instant are both rejected with status 401, but the
rejections carry different messages (the underlying library messages
"invalid signature" and "jwt expired" flow through the catch into the
response body), so the externally observable responses differ and the two
failure causes are client-distinguishable. This refutes the claim that the
rejection content is identical. -/
theorem C3_counterexample_messages_differ :
    verifyJWT cfgC dbC 5 ⟨some forgedC, none⟩ =
      .error (apiError 401 "invalid signature") ∧
    verifyJWT cfgC dbC 5 ⟨some expiredC, none⟩ =
      .error (apiError 401 "jwt expired") ∧
    asyncHandler (.error (apiError 401 "invalid signature")) ≠
      asyncHandler (.error (apiError 401 "jwt expired")) := by
  decide

/-- C3 amended: for every forged token and every expired token reaching the
middleware, both rejections carry the same status classification 401, and
that status is what the wrapper answers with in both cases; the response
messages, however, are the distinct library messages. -/
theorem C3_status_indistinguishability (cfg : Config) (db : Db) (now : Nat)
    (tf te : Jwt) (hforged : tf.secret ≠ cfg.accessTokenSecret)
    (hsec : te.secret = cfg.accessTokenSecret) (hexp : te.exp ≤ now) :
    verifyJWT cfg db now ⟨some tf, none⟩ = .error (apiError 401 "invalid signature") ∧
    verifyJWT cfg db now ⟨some te, none⟩ = .error (apiError 401 "jwt expired") ∧
    (asyncHandler (.error (apiError 401 "invalid signature"))).status =
      (asyncHandler (.error (apiError 401 "jwt expired"))).status := by
  refine ⟨?_, ?_, by decide⟩
  · simp [verifyJWT, verifyJWTBody, jwtVerify, hforged, JwtVerifyError.message, apiError]
  · simp [verifyJWT, verifyJWTBody, jwtVerify, hsec, hexp, JwtVerifyError.message, apiError]

/-- Witness for the amended C3 at the concrete forged and expired tokens. -/
theorem C3_status_indistinguishability_witness :
    verifyJWT cfgC dbC 5 ⟨some forgedC, none⟩ = .error (apiError 401 "invalid signature") ∧
    verifyJWT cfgC dbC 5 ⟨some expiredC, none⟩ = .error (apiError 401 "jwt expired") ∧
    (asyncHandler (.error (apiError 401 "invalid signature"))).status =
      (asyncHandler (.error (apiError 401 "jwt expired"))).status :=
  C3_status_indistinguishability cfgC dbC 5 forgedC expiredC (by decide) rfl (by decide)

/-- C9 counterexample: an error whose code property is set to 0 is answered
with status 500 rather than the code value, because the wrapper tests the
code with JavaScript truthiness (code or 500) rather than for presence. -/
theorem C9_wrapper_code_zero_counterexample :
    asyncHandler (.error ⟨some 0, "boom"⟩) =
      { status := 500, success := false, message := "boom" } ∧ (0 : Nat) ≠ 500 := by
  decide

/-- C9 amended: the wrapper never rethrows (it totalizes every controller
outcome into a response); on an error it answers with a body of success
false and the error message, with status equal to the code property when
that property is set to a nonzero (truthy) value, and 500 when the property
is absent or set to 0. -/
theorem C9_wrapper_totalization (r : Except ApiError HttpResponse) :
    (∀ res, r = .ok res → asyncHandler r = res) ∧
    (∀ e, r = .error e →
      (asyncHandler r).success = false ∧
      (asyncHandler r).message = e.message ∧
      (∀ c, e.code = some c → c ≠ 0 → (asyncHandler r).status = c) ∧
      ((e.code = none ∨ e.code = some 0) → (asyncHandler r).status = 500)) := by
  constructor
  · rintro res rfl
    rfl
  · rintro e rfl
    refine ⟨rfl, rfl, ?_, ?_⟩
    · intro c hc hcz
      simp [asyncHandler, hc, hcz]
    · rintro (hc | hc) <;> simp [asyncHandler, hc]

/-- Witness for the amended C9: a 404 ApiError is answered with status 404
and its message, and a code-less error is answered with status 500. -/
theorem C9_wrapper_totalization_witness :
    (asyncHandler (.error (apiError 404 "User does not exist."))).success = false ∧
    (asyncHandler (.error (apiError 404 "User does not exist."))).message =
      "User does not exist." ∧
    (asyncHandler (.error (apiError 404 "User does not exist."))).status = 404 ∧
    (asyncHandler (.error (⟨none, "oops"⟩ : ApiError))).status = 500 :=
  ⟨((C9_wrapper_totalization (.error (apiError 404 "User does not exist."))).2
      (apiError 404 "User does not exist.") rfl).1,
   ((C9_wrapper_totalization (.error (apiError 404 "User does not exist."))).2
      (apiError 404 "User does not exist.") rfl).2.1,
   ((C9_wrapper_totalization (.error (apiError 404 "User does not exist."))).2
      (apiError 404 "User does not exist.") rfl).2.2.1 404 rfl (by decide),
   ((C9_wrapper_totalization (.error (⟨none, "oops"⟩ : ApiError))).2
      ⟨none, "oops"⟩ rfl).2.2.2 (Or.inl rfl)⟩

/-- C10: Refresh error collapsing. Every failure of a refresh call that
presented a token is surfaced as ApiError with code 401; a validation
failure is rethrown as 401 with the underlying message; a failure of the
rotation step, including the internal 500 store failure, is rethrown as 401
with the underlying message; only the missing-token case produces its own
dedicated message. -/
theorem C10_refresh_error_collapsing (cfg : Config) (db : Db) (now : Nat)
    (saveOk : Bool) (t : Jwt) :
    (∀ db2 e, refreshAccessToken cfg db now saveOk (some t) = (db2, .error e) →
      e.code = some 401) ∧
    (∀ e0, refreshValidate cfg db now t = .error e0 →
      refreshAccessToken cfg db now saveOk (some t) =
        (db, .error (apiError 401 e0.message))) ∧
    (∀ uid db2 e1, refreshValidate cfg db now t = .ok uid →
      generateAccessTokenAndRefreshToken cfg db now saveOk uid = (db2, .error e1) →
      refreshAccessToken cfg db now saveOk (some t) =
        (db2, .error (apiError 401 e1.message))) ∧
    refreshAccessToken cfg db now saveOk none =
      (db, .error (apiError 401 "Unauthorized Request. Refresh Token missing.")) := by
  refine ⟨?_, ?_, ?_, rfl⟩
  · intro db2 e h
    cases hv : refreshValidate cfg db now t with
    | error e0 =>
      simp [refreshAccessToken, hv, apiError] at h
      obtain ⟨h1, h2⟩ := h
      subst h2
      rfl
    | ok uid =>
      rcases hg : generateAccessTokenAndRefreshToken cfg db now saveOk uid with ⟨db3, r3⟩
      cases r3 with
      | error e1 =>
        simp [refreshAccessToken, hv, hg, apiError] at h
        obtain ⟨h1, h2⟩ := h
        subst h2
        rfl
      | ok p =>
        simp [refreshAccessToken, hv, hg] at h
  · intro e0 h
    simp [refreshAccessToken, h]
  · intro uid db2 e1 hv hg
    simp [refreshAccessToken, hv, hg]

/-- Witness for C10 at the concrete fixture: with a failing store save, the
internal 500 failure of rotation is reported as 401 carrying the 500
message, and a missing token is reported with the dedicated message. -/
theorem C10_refresh_error_collapsing_witness :
    refreshAccessToken cfgC dbC 5 false (some t1C) =
      (dbC, .error (apiError 401 generateErrorMessage)) ∧
    refreshAccessToken cfgC dbC 5 false none =
      (dbC, .error (apiError 401 "Unauthorized Request. Refresh Token missing.")) :=
  ⟨(C10_refresh_error_collapsing cfgC dbC 5 false t1C).2.2.1 1 dbC
     (apiError 500 generateErrorMessage) (by decide) (by decide),
   (C10_refresh_error_collapsing cfgC dbC 5 false t1C).2.2.2⟩

/-- C8: the refresh controller runs its validation (store read and
persisted-value comparison) and its rotating write as separate steps, with
no atomic conditional update; refreshAccessToken is definitionally
refreshValidate followed by generateAccessTokenAndRefreshToken. When two
calls present the same valid token t1C and both validations read the store
before either write (times 5 and 7), BOTH calls pass validation and BOTH
rotations succeed, returning two distinct fresh pairs; the store ends with
the second writer's token. When instead the calls serialize (the second
validation reads after the first write), the second call fails with the
TokenReused rejection. This exhibits the race the spec requires the store
to prevent. -/
theorem C8_refresh_race_both_succeed :
    refreshValidate cfgC dbC 5 t1C = .ok 1 ∧
    refreshValidate cfgC dbC 7 t1C = .ok 1 ∧
    generateAccessTokenAndRefreshToken cfgC dbC 5 true 1 =
      ([(1, withToken uC (some (jwtSign 1 "refresh-secret" 5 60)))],
       .ok (jwtSign 1 "access-secret" 5 15, jwtSign 1 "refresh-secret" 5 60)) ∧
    generateAccessTokenAndRefreshToken cfgC
        [(1, withToken uC (some (jwtSign 1 "refresh-secret" 5 60)))] 7 true 1 =
      ([(1, withToken uC (some (jwtSign 1 "refresh-secret" 7 60)))],
       .ok (jwtSign 1 "access-secret" 7 15, jwtSign 1 "refresh-secret" 7 60)) ∧
    jwtSign 1 "refresh-secret" 5 60 ≠ jwtSign 1 "refresh-secret" 7 60 ∧
    refreshAccessToken cfgC
        [(1, withToken uC (some (jwtSign 1 "refresh-secret" 5 60)))] 7 true (some t1C) =
      ([(1, withToken uC (some (jwtSign 1 "refresh-secret" 5 60)))],
       .error (apiError 401 "Refresh token is expired or used.")) := by
  decide

end BackendMaster
